import Mathlib

/-
Verification of the monoPay client SDK payment-required retry middleware
(src/middleware.js) against its specification.

The two source functions, `monoPayFetch` (the wrapped fetch returned by
`createMonoPayMiddleware`) and `createAndSignTransaction`, are embedded as
pure Lean functions.  Every external capability the JavaScript code touches
(the HTTP transport `fetch`, the `Response.json` body parser, the Phantom
wallet object found on `window`, the `PublicKey` base58 parser, the
`Connection.getLatestBlockhash` RPC, and the `bs58` encoder) is supplied
through an explicit environment record `Env`, and a JavaScript exception is
an `Except.error`.  Each run additionally produces a trace of observable
events: transport calls, body parses, wallet and RPC interactions, and the
three observer callbacks.  Control flow, including the single try/catch of
`monoPayFetch`, is translated statement by statement.
-/

set_option autoImplicit false

namespace MonoPay

/-- Error values flowing through the middleware: an `Error` thrown by this
code (with its message string), or an opaque failure raised by an external
capability (transport, body parse, wallet, RPC). -/
inductive JsErr where
  | error (msg : String)
  | ext (code : Nat)
  deriving DecidableEq, Repr

/-- The payment challenge body, `PaymentConfig` of middleware.d.ts: the JSON
body of a 402 response. -/
structure PaymentConfig where
  requiresPayment : Bool
  serviceId : String
  wallet : String
  priceLamports : Int
  message : String
  deriving DecidableEq, Repr

/-- A plain-object header map, as produced and consumed by the JavaScript
object spreads in `monoPayFetch`: an ordered list of key/value pairs. -/
abbrev Headers := List (String × String)

/-- The caller-supplied `fetchOptions` (`RequestInit`): the fields the
middleware and the claims are concerned with. -/
structure FetchOptions where
  method : Option String
  headers : Headers
  body : Option String
  deriving DecidableEq, Repr

/-- A transport response: its HTTP status and an identity tag `rid`
distinguishing distinct response objects. -/
structure Response where
  status : Nat
  rid : Nat
  deriving DecidableEq, Repr

/-- Arguments of `SystemProgram.transfer`: the source, destination and
lamport amount of the single transfer instruction. -/
structure TransferParams where
  fromPubkey : String
  toPubkey : String
  lamports : Int
  deriving DecidableEq, Repr

/-- A transaction instruction; the middleware only ever builds a
`SystemProgram.transfer`. -/
inductive Instruction where
  | transfer (p : TransferParams)
  deriving DecidableEq, Repr

/-- The `Transaction` value built in `createAndSignTransaction`: recent
blockhash, fee payer, and the instruction list filled by `tx.add`. -/
structure SolTx where
  recentBlockhash : String
  feePayer : String
  instructions : List Instruction
  deriving DecidableEq, Repr

/-- The wallet answer to `signTransaction`: a signed transaction carrying
its raw signature bytes. -/
structure SignedTx where
  signature : List Nat
  deriving Repr

/-- The Phantom wallet capability (`window.phantom.solana`): connection
state, the behaviour of `connect()`, the public key the code reads, and the
behaviour of `signTransaction` on each transaction. -/
structure Phantom where
  isConnected : Bool
  connectResult : Except JsErr Unit
  publicKey : String
  signResult : SolTx → Except JsErr SignedTx

/-- The execution environment of one logical call: the transport (indexed
by call number, 0 = initial request, 1 = retry), the `Response.json` parse
of each response object, the optional wallet, the `new PublicKey` base58
parser, the `getLatestBlockhash` RPC keyed by endpoint, and the `bs58`
signature encoder. -/
structure Env where
  fetchFn : Nat → String → FetchOptions → Except JsErr Response
  json : Nat → Except JsErr PaymentConfig
  phantom : Option Phantom
  parsePubkey : String → Except JsErr String
  getLatestBlockhash : String → Except JsErr String
  bs58encode : List Nat → String

/-- The middleware configuration after destructuring in
`createMonoPayMiddleware`: the RPC endpoint and, for each optional observer
callback, whether the caller supplied it. -/
structure MonoPayOptions where
  rpcUrl : String
  hasOnPaymentStart : Bool
  hasOnPaymentSuccess : Bool
  hasOnPaymentError : Bool
  deriving DecidableEq, Repr

/-- The default RPC endpoint of `createMonoPayMiddleware`. -/
def defaultRpcUrl : String := "https://api.devnet.solana.com"

/-- Observable events of one logical call, in program order: transport
calls (with call index, target and options), body parses, the three
callbacks, wallet connection, RPC blockhash fetch, and wallet signing. -/
inductive Event where
  | fetchCall (callIdx : Nat) (url : String) (opts : FetchOptions)
  | jsonCall (rid : Nat)
  | paymentStart
  | paymentSuccess (sig : String)
  | paymentError (e : JsErr)
  | walletConnect
  | rpcCall (rpcUrl : String)
  | walletSign (tx : SolTx)
  deriving DecidableEq, Repr

/-- The `Transaction` constructed by `createAndSignTransaction`: recent
blockhash and fee payer from the constructor argument, and the single
`SystemProgram.transfer` instruction added by `tx.add`. -/
def builtTx (fromPubkey toPubkey blockhash : String) (lamports : Int) :
    SolTx :=
  { recentBlockhash := blockhash
    feePayer := fromPubkey
    instructions :=
      [Instruction.transfer
        { fromPubkey := fromPubkey
          toPubkey := toPubkey
          lamports := lamports }] }

/-- Continuation of `createAndSignTransaction` after the wallet is
resolved and connected (the statements from `const fromPubkey = ...`
onward): read the public key, parse the payout address, fetch the latest
blockhash, build the single-instruction transfer transaction, have the
wallet sign it, and base58-encode the raw signature.  `evs` holds the
events of the connect step already performed. -/
def casConnected (env : Env) (phantom : Phantom)
    (paymentConfig : PaymentConfig) (rpcUrl : String) (evs : List Event) :
    Except JsErr String × List Event :=
  let fromPubkey := phantom.publicKey
  match env.parsePubkey paymentConfig.wallet with
  | Except.error e => (Except.error e, evs)
  | Except.ok toPubkey =>
    match env.getLatestBlockhash rpcUrl with
    | Except.error e => (Except.error e, evs ++ [Event.rpcCall rpcUrl])
    | Except.ok blockhash =>
      let tx : SolTx :=
        builtTx fromPubkey toPubkey blockhash paymentConfig.priceLamports
      match phantom.signResult tx with
      | Except.error e =>
        (Except.error e,
          evs ++ [Event.rpcCall rpcUrl, Event.walletSign tx])
      | Except.ok signed =>
        (Except.ok (env.bs58encode signed.signature),
          evs ++ [Event.rpcCall rpcUrl, Event.walletSign tx])

/-- Embedding of `createAndSignTransaction(paymentConfig, rpcUrl)`:
resolve the wallet (throwing when absent), connect if not connected, then
run the post-connect continuation `casConnected`.  Returns the thrown
error or the encoded signature, together with the events of the
attempt. -/
def createAndSignTransaction (env : Env) (paymentConfig : PaymentConfig)
    (rpcUrl : String) : Except JsErr String × List Event :=
  match env.phantom with
  | none =>
    (Except.error (JsErr.error
      "Phantom wallet not found. Please install Phantom extension."), [])
  | some phantom =>
    if phantom.isConnected then
      casConnected env phantom paymentConfig rpcUrl []
    else
      match phantom.connectResult with
      | Except.error e => (Except.error e, [Event.walletConnect])
      | Except.ok _ =>
        casConnected env phantom paymentConfig rpcUrl [Event.walletConnect]

/-- JavaScript object-spread update `\x7b...m, k: v\x7d`: if `k` is already a
key, its binding is overwritten in place; otherwise `(k, v)` is appended. -/
def setKey (m : Headers) (k v : String) : Headers :=
  if m.any (fun p => p.1 == k) then
    m.map (fun p => if p.1 = k then (k, v) else p)
  else
    m ++ [(k, v)]

/-- The options of the retried request, built by the spread
`\x7b...fetchOptions, headers: \x7b...fetchOptions.headers,
"x-tx-signature": signature\x7d\x7d`: a fresh options object copying every
field of the original, with a fresh headers object carrying the proof
header. -/
def retryOptions (fetchOptions : FetchOptions) (signature : String) :
    FetchOptions :=
  { fetchOptions with
    headers := setKey fetchOptions.headers "x-tx-signature" signature }

/-- The try block of `monoPayFetch`: initial request, 402 check, body
parse, `onPaymentStart`, acquisition, `onPaymentSuccess`, retried
request. -/
def monoPayFetchTry (options : MonoPayOptions) (env : Env) (url : String)
    (fetchOptions : FetchOptions) : Except JsErr Response × List Event :=
  match env.fetchFn 0 url fetchOptions with
  | Except.error e => (Except.error e, [Event.fetchCall 0 url fetchOptions])
  | Except.ok initialResponse =>
    let ev0 := [Event.fetchCall 0 url fetchOptions]
    if initialResponse.status ≠ 402 then
      (Except.ok initialResponse, ev0)
    else
      match env.json initialResponse.rid with
      | Except.error e =>
        (Except.error e, ev0 ++ [Event.jsonCall initialResponse.rid])
      | Except.ok paymentConfig =>
        let ev1 := ev0 ++ [Event.jsonCall initialResponse.rid] ++
          (if options.hasOnPaymentStart then [Event.paymentStart] else [])
        let acq := createAndSignTransaction env paymentConfig options.rpcUrl
        match acq.1 with
        | Except.error e => (Except.error e, ev1 ++ acq.2)
        | Except.ok signature =>
          let ev2 := ev1 ++ acq.2 ++
            (if options.hasOnPaymentSuccess
              then [Event.paymentSuccess signature] else [])
          let rOpts := retryOptions fetchOptions signature
          match env.fetchFn 1 url rOpts with
          | Except.error e =>
            (Except.error e, ev2 ++ [Event.fetchCall 1 url rOpts])
          | Except.ok retryResponse =>
            (Except.ok retryResponse, ev2 ++ [Event.fetchCall 1 url rOpts])

/-- The catch block of `monoPayFetch`: on any thrown error, invoke
`onPaymentError` when supplied and rethrow the same error. -/
def catchPaymentError (options : MonoPayOptions)
    (r : Except JsErr Response × List Event) :
    Except JsErr Response × List Event :=
  match r.1 with
  | Except.ok v => (Except.ok v, r.2)
  | Except.error e =>
    (Except.error e,
      r.2 ++ (if options.hasOnPaymentError then [Event.paymentError e] else []))

/-- Embedding of the wrapped fetch `monoPayFetch(url, fetchOptions)`
returned by `createMonoPayMiddleware`: the try block wrapped in the
catch. -/
def monoPayFetch (options : MonoPayOptions) (env : Env) (url : String)
    (fetchOptions : FetchOptions) : Except JsErr Response × List Event :=
  catchPaymentError options (monoPayFetchTry options env url fetchOptions)

/-- Event classifier: is this event an `onPaymentSuccess` invocation. -/
def isPaymentSuccess : Event → Bool
  | Event.paymentSuccess _ => true
  | _ => false

/-- Event classifier: is this event an `onPaymentError` invocation. -/
def isPaymentError : Event → Bool
  | Event.paymentError _ => true
  | _ => false

/-- Event classifier: is this event an `onPaymentStart` invocation. -/
def isPaymentStart : Event → Bool
  | Event.paymentStart => true
  | _ => false

/-- Event classifier: is this event a transport call. -/
def isFetchCall : Event → Bool
  | Event.fetchCall _ _ _ => true
  | _ => false

/-- Event classifier: is this event an RPC blockhash fetch. -/
def isRpcCall : Event → Bool
  | Event.rpcCall _ => true
  | _ => false

/-- Event classifier: is this event a wallet connect attempt. -/
def isWalletConnect : Event → Bool
  | Event.walletConnect => true
  | _ => false

/-- Event classifier: is this event a wallet signing request. -/
def isWalletSign : Event → Bool
  | Event.walletSign _ => true
  | _ => false

/-- Helper of `allPrecededByStart`: `seen` records whether an
`onPaymentStart` event has occurred strictly earlier. -/
def precededFrom (p : Event → Bool) : Bool → List Event → Bool
  | _, [] => true
  | seen, e :: rest =>
    (!p e || seen) && precededFrom p (seen || isPaymentStart e) rest

/-- Every event of the trace satisfying `p` is strictly preceded by an
`onPaymentStart` event. -/
def allPrecededByStart (p : Event → Bool) (tr : List Event) : Bool :=
  precededFrom p false tr

/-- First-match header lookup in a plain-object header map. -/
def getHeader (hs : Headers) (k : String) : Option String :=
  match hs with
  | [] => none
  | (k2, v) :: rest => if k2 = k then some v else getHeader rest k

/-! Concrete environments used to evaluate the middleware on specific
inputs: a configuration with all three callbacks supplied, a connected
wallet that signs successfully, and transports exercising each path. -/

/-- A configuration with all three observer callbacks supplied. -/
def cOpts : MonoPayOptions :=
  { rpcUrl := "R", hasOnPaymentStart := true, hasOnPaymentSuccess := true,
    hasOnPaymentError := true }

/-- Concrete caller-supplied fetch options with one custom header. -/
def cFo : FetchOptions :=
  { method := some "GET", headers := [("a", "1")], body := none }

/-- A concrete payment challenge. -/
def cCfg : PaymentConfig :=
  { requiresPayment := true, serviceId := "svc", wallet := "ADDR1",
    priceLamports := 5000000, message := "pay" }

/-- A connected Phantom wallet that signs every transaction, producing
signature bytes `[1, 2, 3]`. -/
def cPhantom : Phantom :=
  { isConnected := true, connectResult := Except.ok (), publicKey := "PK",
    signResult := fun _ => Except.ok { signature := [1, 2, 3] } }

/-- Environment of the happy path: the initial request draws a 402
challenge, the body parses, the wallet signs, and the retried request
succeeds with status 200. -/
def okEnv : Env :=
  { fetchFn := fun i _ _ =>
      if i = 0 then Except.ok { status := 402, rid := 7 }
      else Except.ok { status := 200, rid := 8 }
    json := fun _ => Except.ok cCfg
    phantom := some cPhantom
    parsePubkey := fun s => Except.ok s
    getLatestBlockhash := fun _ => Except.ok "BH"
    bs58encode := fun bs => String.intercalate "," (bs.map toString) }

/-- The proof token produced by `okEnv`: the encoding of `[1, 2, 3]`. -/
def cSig : String := "1,2,3"

/-- Like `okEnv`, but the retried transport call fails. -/
def retryFailEnv : Env :=
  { okEnv with fetchFn := fun i _ _ =>
      if i = 0 then Except.ok { status := 402, rid := 7 }
      else Except.error (JsErr.ext 9) }

/-- Like `okEnv`, but the challenge body fails to parse. -/
def jsonFailEnv : Env :=
  { okEnv with json := fun _ => Except.error (JsErr.ext 5) }

/-- Environment where the initial transport call itself fails. -/
def fetch0FailEnv : Env :=
  { okEnv with fetchFn := fun _ _ _ => Except.error (JsErr.ext 3) }

/-- Like `okEnv`, but no wallet capability is present. -/
def noWalletEnv : Env := { okEnv with phantom := none }

/-- Environment where the initial request succeeds with status 200. -/
def plainEnv : Env :=
  { okEnv with fetchFn := fun _ _ _ => Except.ok { status := 200, rid := 1 } }

/-- Like `okEnv`, but the retried request draws a second 402. -/
def retry402Env : Env :=
  { okEnv with fetchFn := fun i _ _ =>
      if i = 0 then Except.ok { status := 402, rid := 7 }
      else Except.ok { status := 402, rid := 9 } }

/-! Basic lemmas about event classifiers, the acquirer trace and the
preceded-by-start check. -/

/-- The trace of the post-connect continuation extends the connect events
by nothing, by the RPC fetch, or by the RPC fetch and a signing request. -/
theorem casConnected_trace (env : Env) (phantom : Phantom)
    (cfg : PaymentConfig) (rpcUrl : String) (evs : List Event) :
    (casConnected env phantom cfg rpcUrl evs).2 = evs ∨
    (casConnected env phantom cfg rpcUrl evs).2 =
      evs ++ [Event.rpcCall rpcUrl] ∨
    ∃ tx, (casConnected env phantom cfg rpcUrl evs).2 =
      evs ++ [Event.rpcCall rpcUrl, Event.walletSign tx] := by
  simp only [casConnected]
  split
  · exact Or.inl rfl
  · split
    · exact Or.inr (Or.inl rfl)
    · split
      · exact Or.inr (Or.inr ⟨_, rfl⟩)
      · exact Or.inr (Or.inr ⟨_, rfl⟩)

/-- The acquirer trace is one of: empty, a wallet connect, an optional
wallet connect followed by the RPC fetch, or an optional wallet connect
followed by the RPC fetch and a signing request.  In particular it
contains no transport call and no callback invocation. -/
theorem cas_trace (env : Env) (cfg : PaymentConfig) (rpcUrl : String) :
    ∃ connEvs, (connEvs = [] ∨ connEvs = [Event.walletConnect]) ∧
      ((createAndSignTransaction env cfg rpcUrl).2 = connEvs ∨
       (createAndSignTransaction env cfg rpcUrl).2 =
         connEvs ++ [Event.rpcCall rpcUrl] ∨
       ∃ tx, (createAndSignTransaction env cfg rpcUrl).2 =
         connEvs ++ [Event.rpcCall rpcUrl, Event.walletSign tx]) := by
  unfold createAndSignTransaction
  split
  · exact ⟨[], Or.inl rfl, Or.inl rfl⟩
  · split
    · exact ⟨[], Or.inl rfl, casConnected_trace _ _ _ _ _⟩
    · split
      · exact ⟨[Event.walletConnect], Or.inr rfl, Or.inl rfl⟩
      · exact ⟨[Event.walletConnect], Or.inr rfl,
          casConnected_trace _ _ _ _ _⟩

/-- A classifier that rejects wallet-connect, RPC and signing events
counts nothing on the acquirer trace. -/
theorem cas_countP_zero (env : Env) (cfg : PaymentConfig) (rpcUrl : String)
    (p : Event → Bool) (hwc : p Event.walletConnect = false)
    (hrpc : ∀ u, p (Event.rpcCall u) = false)
    (hsg : ∀ tx, p (Event.walletSign tx) = false) :
    ((createAndSignTransaction env cfg rpcUrl).2).countP p = 0 := by
  obtain ⟨connEvs, hconn, htr⟩ := cas_trace env cfg rpcUrl
  rcases hconn with hc | hc <;> rcases htr with h | h | ⟨tx, h⟩ <;>
    rw [h, hc] <;>
    simp [List.countP_append, List.countP_cons, List.countP_nil, hwc, hrpc, hsg]

/-- Once an `onPaymentStart` has been seen, the preceded-by-start check
succeeds on any remainder of the trace. -/
theorem precededFrom_true (p : Event → Bool) (l : List Event) :
    precededFrom p true l = true := by
  induction l with
  | nil => rfl
  | cons e rest ih => simp [precededFrom, ih]

/-- Success characterization of the post-connect continuation: a token is
produced exactly when the address parses, the blockhash is fetched, and
the wallet signs the built transfer transaction; the token is the base58
encoding of the raw signature bytes. -/
theorem casConnected_ok (env : Env) (phantom : Phantom)
    (cfg : PaymentConfig) (rpcUrl : String) (evs : List Event)
    (token : String) (evs2 : List Event)
    (h : casConnected env phantom cfg rpcUrl evs = (Except.ok token, evs2)) :
    ∃ toPubkey blockhash signed,
      env.parsePubkey cfg.wallet = Except.ok toPubkey ∧
      env.getLatestBlockhash rpcUrl = Except.ok blockhash ∧
      phantom.signResult
        (builtTx phantom.publicKey toPubkey blockhash cfg.priceLamports) =
        Except.ok signed ∧
      token = env.bs58encode signed.signature ∧
      evs2 = evs ++ [Event.rpcCall rpcUrl,
        Event.walletSign
          (builtTx phantom.publicKey toPubkey blockhash
            cfg.priceLamports)] := by
  simp only [casConnected] at h
  split at h
  · simp at h
  next toPubkey hpp =>
    split at h
    · simp at h
    next blockhash hbh =>
      split at h
      · simp at h
      next signed hsg =>
        simp only [Prod.mk.injEq, Except.ok.injEq] at h
        exact ⟨toPubkey, blockhash, signed, hpp, hbh, hsg,
          h.1.symm, h.2.symm⟩

/-- C3: every successfully acquired proof comes from a single-instruction
transfer transaction whose source and fee payer are the wallet public
key, whose destination is the parsed payout address of the challenge,
whose amount is the challenge `priceLamports`, anchored to the latest
blockhash fetched from the given RPC endpoint; the wallet signs that
transaction and the proof token is the base58 encoding of the raw
signature bytes of the signed transaction. -/
theorem acquired_token_is_signed_transfer (env : Env) (cfg : PaymentConfig)
    (rpcUrl : String) (token : String) (evs : List Event)
    (h : createAndSignTransaction env cfg rpcUrl = (Except.ok token, evs)) :
    ∃ phantom connEvs toPubkey blockhash signed,
      env.phantom = some phantom ∧
      (connEvs = [] ∨ connEvs = [Event.walletConnect]) ∧
      env.parsePubkey cfg.wallet = Except.ok toPubkey ∧
      env.getLatestBlockhash rpcUrl = Except.ok blockhash ∧
      phantom.signResult
        (builtTx phantom.publicKey toPubkey blockhash cfg.priceLamports) =
        Except.ok signed ∧
      token = env.bs58encode signed.signature ∧
      evs = connEvs ++ [Event.rpcCall rpcUrl,
        Event.walletSign
          (builtTx phantom.publicKey toPubkey blockhash
            cfg.priceLamports)] := by
  unfold createAndSignTransaction at h
  split at h
  · simp at h
  next phantom hph =>
    split at h
    · obtain ⟨t, b, s, h1, h2, h3, h4, h5⟩ :=
        casConnected_ok _ _ _ _ _ _ _ h
      exact ⟨phantom, [], t, b, s, hph, Or.inl rfl, h1, h2, h3, h4, h5⟩
    · split at h
      · simp at h
      next u hcr =>
        obtain ⟨t, b, s, h1, h2, h3, h4, h5⟩ :=
          casConnected_ok _ _ _ _ _ _ _ h
        exact ⟨phantom, [Event.walletConnect], t, b, s, hph, Or.inr rfl,
          h1, h2, h3, h4, h5⟩

/-- Witness for C3: in the happy-path environment the acquirer returns
the token "1,2,3", the encoding of the signature bytes `[1, 2, 3]`
produced over the transfer of 5000000 lamports from "PK" to "ADDR1"
anchored to blockhash "BH". -/
theorem acquired_token_is_signed_transfer_witness :
    ∃ phantom connEvs toPubkey blockhash signed,
      okEnv.phantom = some phantom ∧
      (connEvs = [] ∨ connEvs = [Event.walletConnect]) ∧
      okEnv.parsePubkey cCfg.wallet = Except.ok toPubkey ∧
      okEnv.getLatestBlockhash "R" = Except.ok blockhash ∧
      phantom.signResult
        (builtTx phantom.publicKey toPubkey blockhash cCfg.priceLamports) =
        Except.ok signed ∧
      cSig = okEnv.bs58encode signed.signature ∧
      [Event.rpcCall "R",
        Event.walletSign (builtTx "PK" "ADDR1" "BH" 5000000)] =
        connEvs ++ [Event.rpcCall "R",
          Event.walletSign
            (builtTx phantom.publicKey toPubkey blockhash
              cCfg.priceLamports)] :=
  acquired_token_is_signed_transfer okEnv cCfg "R" cSig
    [Event.rpcCall "R", Event.walletSign (builtTx "PK" "ADDR1" "BH" 5000000)]
    rfl

/-- C2: a non-402 initial response is returned to the caller as-is, and
the whole logical call consists of exactly that one transport call: the
trace is the singleton initial `fetchCall`, so no body parse, no wallet
interaction, no RPC call, no retried request and no callback occurs. -/
theorem nonchallenge_passthrough (options : MonoPayOptions) (env : Env)
    (url : String) (fo : FetchOptions) (r0 : Response)
    (h0 : env.fetchFn 0 url fo = Except.ok r0) (h402 : r0.status ≠ 402) :
    monoPayFetch options env url fo =
      (Except.ok r0, [Event.fetchCall 0 url fo]) := by
  simp [monoPayFetch, monoPayFetchTry, catchPaymentError, h0, h402]

/-- Witness for C2: a 200 response from the initial request is returned
unchanged with a single transport call in the trace. -/
theorem nonchallenge_passthrough_witness :
    monoPayFetch cOpts plainEnv "/y" cFo =
      (Except.ok { status := 200, rid := 1 },
        [Event.fetchCall 0 "/y" cFo]) :=
  nonchallenge_passthrough cOpts plainEnv "/y" cFo
    { status := 200, rid := 1 } rfl (by decide)

/-- C7: when no wallet capability is present, a challenge cycle rejects
with the wallet-unavailable error, and the trace contains no RPC call, no
wallet connect, no signing request, and only the single initial transport
call (so no retried request). -/
theorem walletUnavailable_no_rpc (options : MonoPayOptions) (env : Env)
    (url : String) (fo : FetchOptions) (r0 : Response) (cfg : PaymentConfig)
    (hw : env.phantom = none)
    (h0 : env.fetchFn 0 url fo = Except.ok r0) (h402 : r0.status = 402)
    (hj : env.json r0.rid = Except.ok cfg) :
    (monoPayFetch options env url fo).1 =
      Except.error (JsErr.error
        "Phantom wallet not found. Please install Phantom extension.") ∧
    ((monoPayFetch options env url fo).2).countP isRpcCall = 0 ∧
    ((monoPayFetch options env url fo).2).countP isWalletConnect = 0 ∧
    ((monoPayFetch options env url fo).2).countP isWalletSign = 0 ∧
    ((monoPayFetch options env url fo).2).countP isFetchCall = 1 := by
  have hcas : createAndSignTransaction env cfg options.rpcUrl =
      (Except.error (JsErr.error
        "Phantom wallet not found. Please install Phantom extension."), []) := by
    simp [createAndSignTransaction, hw]
  cases hs : options.hasOnPaymentStart <;>
    cases he : options.hasOnPaymentError <;>
    simp [monoPayFetch, monoPayFetchTry, catchPaymentError, h0, h402, hj,
      hcas, hs, he, isRpcCall, isWalletConnect, isWalletSign, isFetchCall,
      List.countP_append, List.countP_cons]

/-- Witness for C7: with the wallet absent the concrete challenge run
rejects with the wallet-unavailable error and performs no RPC call, no
wallet interaction and no retried request. -/
theorem walletUnavailable_no_rpc_witness :
    (monoPayFetch cOpts noWalletEnv "/x" cFo).1 =
      Except.error (JsErr.error
        "Phantom wallet not found. Please install Phantom extension.") ∧
    ((monoPayFetch cOpts noWalletEnv "/x" cFo).2).countP isRpcCall = 0 ∧
    ((monoPayFetch cOpts noWalletEnv "/x" cFo).2).countP isWalletConnect = 0 ∧
    ((monoPayFetch cOpts noWalletEnv "/x" cFo).2).countP isWalletSign = 0 ∧
    ((monoPayFetch cOpts noWalletEnv "/x" cFo).2).countP isFetchCall = 1 :=
  walletUnavailable_no_rpc cOpts noWalletEnv "/x" cFo
    { status := 402, rid := 7 } cCfg rfl rfl rfl rfl

/-- Events of the catch block: the `onPaymentError` invocation when the
callback is supplied. -/
def errEvs (options : MonoPayOptions) (e : JsErr) : List Event :=
  if options.hasOnPaymentError then [Event.paymentError e] else []

/-- Events of the `onPaymentStart` notification when supplied. -/
def startEvs (options : MonoPayOptions) : List Event :=
  if options.hasOnPaymentStart then [Event.paymentStart] else []

/-- Events of the `onPaymentSuccess` notification when supplied. -/
def succEvs (options : MonoPayOptions) (sig : String) : List Event :=
  if options.hasOnPaymentSuccess then [Event.paymentSuccess sig] else []

/-- Classification of every run of the wrapped fetch: the initial
transport call fails; a non-402 response is returned; the challenge body
fails to parse; the acquirer fails; the acquirer succeeds and the retried
transport call fails; or the retried call returns a response, which is
returned.  Each case gives the full result and trace. -/
theorem run_cases (options : MonoPayOptions) (env : Env) (url : String)
    (fo : FetchOptions) :
    (∃ e, env.fetchFn 0 url fo = Except.error e ∧
      monoPayFetch options env url fo =
        (Except.error e, Event.fetchCall 0 url fo :: errEvs options e)) ∨
    (∃ r0, env.fetchFn 0 url fo = Except.ok r0 ∧ r0.status ≠ 402 ∧
      monoPayFetch options env url fo =
        (Except.ok r0, [Event.fetchCall 0 url fo])) ∨
    (∃ r0 e, env.fetchFn 0 url fo = Except.ok r0 ∧ r0.status = 402 ∧
      env.json r0.rid = Except.error e ∧
      monoPayFetch options env url fo =
        (Except.error e, Event.fetchCall 0 url fo ::
          Event.jsonCall r0.rid :: errEvs options e)) ∨
    (∃ r0 cfg e, env.fetchFn 0 url fo = Except.ok r0 ∧ r0.status = 402 ∧
      env.json r0.rid = Except.ok cfg ∧
      (createAndSignTransaction env cfg options.rpcUrl).1 = Except.error e ∧
      monoPayFetch options env url fo =
        (Except.error e, Event.fetchCall 0 url fo ::
          Event.jsonCall r0.rid :: (startEvs options ++
            ((createAndSignTransaction env cfg options.rpcUrl).2 ++
              errEvs options e)))) ∨
    (∃ r0 cfg sig e, env.fetchFn 0 url fo = Except.ok r0 ∧ r0.status = 402 ∧
      env.json r0.rid = Except.ok cfg ∧
      (createAndSignTransaction env cfg options.rpcUrl).1 = Except.ok sig ∧
      env.fetchFn 1 url (retryOptions fo sig) = Except.error e ∧
      monoPayFetch options env url fo =
        (Except.error e, Event.fetchCall 0 url fo ::
          Event.jsonCall r0.rid :: (startEvs options ++
            ((createAndSignTransaction env cfg options.rpcUrl).2 ++
              (succEvs options sig ++
                (Event.fetchCall 1 url (retryOptions fo sig) ::
                  errEvs options e)))))) ∨
    (∃ r0 cfg sig r1, env.fetchFn 0 url fo = Except.ok r0 ∧
      r0.status = 402 ∧
      env.json r0.rid = Except.ok cfg ∧
      (createAndSignTransaction env cfg options.rpcUrl).1 = Except.ok sig ∧
      env.fetchFn 1 url (retryOptions fo sig) = Except.ok r1 ∧
      monoPayFetch options env url fo =
        (Except.ok r1, Event.fetchCall 0 url fo ::
          Event.jsonCall r0.rid :: (startEvs options ++
            ((createAndSignTransaction env cfg options.rpcUrl).2 ++
              (succEvs options sig ++
                [Event.fetchCall 1 url (retryOptions fo sig)]))))) := by
  rcases h0 : env.fetchFn 0 url fo with e | r0
  · refine Or.inl ⟨e, rfl, ?_⟩
    simp [monoPayFetch, monoPayFetchTry, catchPaymentError, h0, errEvs]
  · by_cases h402 : r0.status = 402
    · rcases hj : env.json r0.rid with e | cfg
      · refine Or.inr (Or.inr (Or.inl ⟨r0, e, rfl, h402, hj, ?_⟩))
        simp [monoPayFetch, monoPayFetchTry, catchPaymentError, h0, h402,
          hj, errEvs]
      · rcases hcas : (createAndSignTransaction env cfg options.rpcUrl).1
          with e | sig
        · refine Or.inr (Or.inr (Or.inr (Or.inl
            ⟨r0, cfg, e, rfl, h402, hj, hcas, ?_⟩)))
          simp [monoPayFetch, monoPayFetchTry, catchPaymentError, h0, h402,
            hj, hcas, errEvs, startEvs]
        · rcases h1 : env.fetchFn 1 url (retryOptions fo sig) with e | r1
          · refine Or.inr (Or.inr (Or.inr (Or.inr (Or.inl
              ⟨r0, cfg, sig, e, rfl, h402, hj, hcas, h1, ?_⟩))))
            simp [monoPayFetch, monoPayFetchTry, catchPaymentError, h0,
              h402, hj, hcas, h1, errEvs, startEvs, succEvs]
          · refine Or.inr (Or.inr (Or.inr (Or.inr (Or.inr
              ⟨r0, cfg, sig, r1, rfl, h402, hj, hcas, h1, ?_⟩))))
            simp [monoPayFetch, monoPayFetchTry, catchPaymentError, h0,
              h402, hj, hcas, h1, errEvs, startEvs, succEvs]
    · refine Or.inr (Or.inl ⟨r0, rfl, h402, ?_⟩)
      simp [monoPayFetch, monoPayFetchTry, catchPaymentError, h0, h402]


/-- C1 (amended): for a challenge cycle (initial response 402) with the
success and error callbacks supplied, exactly one of `onPaymentSuccess`
and `onPaymentError` fires — except when the acquirer succeeds and the
retried transport call then fails, in which case both fire; never
neither.  The claim as stated (never both) fails on the code, because the
catch block also wraps the retried request. -/
theorem challenge_exactly_one_callback (options : MonoPayOptions) (env : Env)
    (url : String) (fo : FetchOptions) (r0 : Response)
    (hS : options.hasOnPaymentSuccess = true)
    (hE : options.hasOnPaymentError = true)
    (h0 : env.fetchFn 0 url fo = Except.ok r0) (h402 : r0.status = 402) :
    (((monoPayFetch options env url fo).2).countP isPaymentSuccess = 1 ∧
      ((monoPayFetch options env url fo).2).countP isPaymentError = 0) ∨
    (((monoPayFetch options env url fo).2).countP isPaymentSuccess = 0 ∧
      ((monoPayFetch options env url fo).2).countP isPaymentError = 1) ∨
    (((monoPayFetch options env url fo).2).countP isPaymentSuccess = 1 ∧
      ((monoPayFetch options env url fo).2).countP isPaymentError = 1 ∧
      ∃ sig e, env.fetchFn 1 url (retryOptions fo sig) = Except.error e) := by
  rcases run_cases options env url fo with
    ⟨e, he, hrun⟩ | ⟨r0x, he, hs, hrun⟩ | ⟨r0x, e, he, hs, hj, hrun⟩ |
    ⟨r0x, cfg, e, he, hs, hj, hcas, hrun⟩ |
    ⟨r0x, cfg, sig, e, he, hs, hj, hcas, h1, hrun⟩ |
    ⟨r0x, cfg, sig, r1, he, hs, hj, hcas, h1, hrun⟩
  · rw [h0] at he; cases he
  · rw [h0] at he; injection he with he; subst he; exact absurd h402 hs
  · right; left
    rw [hrun]
    simp [List.countP_cons, errEvs, hE, isPaymentSuccess, isPaymentError]
  · right; left
    rw [hrun]
    cases hSt : options.hasOnPaymentStart <;>
      simp [List.countP_append, List.countP_cons, errEvs, startEvs, hE, hSt,
        isPaymentSuccess, isPaymentError,
        cas_countP_zero env cfg options.rpcUrl isPaymentSuccess rfl
          (fun _ => rfl) (fun _ => rfl),
        cas_countP_zero env cfg options.rpcUrl isPaymentError rfl
          (fun _ => rfl) (fun _ => rfl)]
  · right; right
    refine ⟨?_, ?_, sig, e, h1⟩ <;> rw [hrun] <;>
      cases hSt : options.hasOnPaymentStart <;>
      simp [List.countP_append, List.countP_cons, errEvs, startEvs, succEvs,
        hE, hS, hSt, isPaymentSuccess, isPaymentError,
        cas_countP_zero env cfg options.rpcUrl isPaymentSuccess rfl
          (fun _ => rfl) (fun _ => rfl),
        cas_countP_zero env cfg options.rpcUrl isPaymentError rfl
          (fun _ => rfl) (fun _ => rfl)]
  · left
    rw [hrun]
    cases hSt : options.hasOnPaymentStart <;>
      simp [List.countP_append, List.countP_cons, errEvs, startEvs, succEvs,
        hE, hS, hSt, isPaymentSuccess, isPaymentError,
        cas_countP_zero env cfg options.rpcUrl isPaymentSuccess rfl
          (fun _ => rfl) (fun _ => rfl),
        cas_countP_zero env cfg options.rpcUrl isPaymentError rfl
          (fun _ => rfl) (fun _ => rfl)]

/-- Witness for C1: the happy-path challenge run fires `onPaymentSuccess`
exactly once and `onPaymentError` not at all. -/
theorem challenge_exactly_one_callback_witness :
    (((monoPayFetch cOpts okEnv "/x" cFo).2).countP isPaymentSuccess = 1 ∧
      ((monoPayFetch cOpts okEnv "/x" cFo).2).countP isPaymentError = 0) ∨
    (((monoPayFetch cOpts okEnv "/x" cFo).2).countP isPaymentSuccess = 0 ∧
      ((monoPayFetch cOpts okEnv "/x" cFo).2).countP isPaymentError = 1) ∨
    (((monoPayFetch cOpts okEnv "/x" cFo).2).countP isPaymentSuccess = 1 ∧
      ((monoPayFetch cOpts okEnv "/x" cFo).2).countP isPaymentError = 1 ∧
      ∃ sig e, okEnv.fetchFn 1 "/x" (retryOptions cFo sig) =
        Except.error e) :=
  challenge_exactly_one_callback cOpts okEnv "/x" cFo
    { status := 402, rid := 7 } rfl rfl rfl rfl

/-- Counterexample to C1 as stated: when the wallet signs but the retried
transport call fails, both `onPaymentSuccess` and `onPaymentError` fire
in the same challenge cycle. -/
theorem challenge_both_callbacks_counterexample :
    ((monoPayFetch cOpts retryFailEnv "/x" cFo).2).countP isPaymentSuccess
      = 1 ∧
    ((monoPayFetch cOpts retryFailEnv "/x" cFo).2).countP isPaymentError
      = 1 := by
  constructor <;> rfl

/-- C6 (amended): `onPaymentStart` fires at most once and always strictly
before `onPaymentSuccess`; `onPaymentError` is also preceded by
`onPaymentStart` except when the initial transport call fails or the
challenge body fails to parse, in which cases `onPaymentError` fires
without any preceding `onPaymentStart`.  The claim as stated fails on the
code because `onPaymentStart` only fires after `response.json()`
succeeds, while the catch block fires `onPaymentError` for parse
failures too. -/
theorem start_before_success_ordering (options : MonoPayOptions) (env : Env)
    (url : String) (fo : FetchOptions)
    (hSt : options.hasOnPaymentStart = true) :
    ((monoPayFetch options env url fo).2).countP isPaymentStart ≤ 1 ∧
    allPrecededByStart isPaymentSuccess
      ((monoPayFetch options env url fo).2) = true ∧
    (allPrecededByStart isPaymentError
        ((monoPayFetch options env url fo).2) = true ∨
      (∃ e, env.fetchFn 0 url fo = Except.error e) ∨
      (∃ r0 e, env.fetchFn 0 url fo = Except.ok r0 ∧ r0.status = 402 ∧
        env.json r0.rid = Except.error e)) := by
  rcases run_cases options env url fo with
    ⟨e, he, hrun⟩ | ⟨r0, he, hs, hrun⟩ | ⟨r0, e, he, hs, hj, hrun⟩ |
    ⟨r0, cfg, e, he, hs, hj, hcas, hrun⟩ |
    ⟨r0, cfg, sig, e, he, hs, hj, hcas, h1, hrun⟩ |
    ⟨r0, cfg, sig, r1, he, hs, hj, hcas, h1, hrun⟩
  · refine ⟨?_, ?_, Or.inr (Or.inl ⟨e, he⟩)⟩ <;> rw [hrun] <;>
      cases hE : options.hasOnPaymentError <;>
      simp [List.countP_cons, errEvs, hE, isPaymentStart, isPaymentSuccess,
        allPrecededByStart, precededFrom]
  · refine ⟨?_, ?_, Or.inl ?_⟩ <;> rw [hrun] <;>
      simp [List.countP_cons, isPaymentStart, isPaymentSuccess,
        isPaymentError, allPrecededByStart, precededFrom]
  · refine ⟨?_, ?_, Or.inr (Or.inr ⟨r0, e, he, hs, hj⟩)⟩ <;> rw [hrun] <;>
      cases hE : options.hasOnPaymentError <;>
      simp [List.countP_cons, errEvs, hE, isPaymentStart, isPaymentSuccess,
        allPrecededByStart, precededFrom]
  · refine ⟨?_, ?_, Or.inl ?_⟩ <;> rw [hrun] <;>
      cases hE : options.hasOnPaymentError <;>
      simp [List.countP_append, List.countP_cons, errEvs, startEvs, hE, hSt,
        isPaymentStart, isPaymentSuccess, isPaymentError,
        allPrecededByStart, precededFrom, precededFrom_true,
        cas_countP_zero env cfg options.rpcUrl isPaymentStart rfl
          (fun _ => rfl) (fun _ => rfl)]
  · refine ⟨?_, ?_, Or.inl ?_⟩ <;> rw [hrun] <;>
      cases hE : options.hasOnPaymentError <;>
      cases hS : options.hasOnPaymentSuccess <;>
      simp [List.countP_append, List.countP_cons, errEvs, startEvs, succEvs,
        hE, hS, hSt, isPaymentStart, isPaymentSuccess, isPaymentError,
        allPrecededByStart, precededFrom, precededFrom_true,
        cas_countP_zero env cfg options.rpcUrl isPaymentStart rfl
          (fun _ => rfl) (fun _ => rfl)]
  · refine ⟨?_, ?_, Or.inl ?_⟩ <;> rw [hrun] <;>
      cases hS : options.hasOnPaymentSuccess <;>
      simp [List.countP_append, List.countP_cons, startEvs, succEvs,
        hS, hSt, isPaymentStart, isPaymentSuccess, isPaymentError,
        allPrecededByStart, precededFrom, precededFrom_true,
        cas_countP_zero env cfg options.rpcUrl isPaymentStart rfl
          (fun _ => rfl) (fun _ => rfl)]

/-- Counterexample to C6 as stated: when the challenge body fails to
parse, `onPaymentError` fires as the very first callback, with no
preceding `onPaymentStart`. -/
theorem error_without_start_counterexample :
    ((monoPayFetch cOpts jsonFailEnv "/x" cFo).2).countP isPaymentError
      = 1 ∧
    allPrecededByStart isPaymentError
      ((monoPayFetch cOpts jsonFailEnv "/x" cFo).2) = false := by
  constructor <;> rfl

/-- Witness for C6: on the happy path the callbacks are ordered with
`onPaymentStart` strictly before the others. -/
theorem start_before_success_ordering_witness :
    ((monoPayFetch cOpts okEnv "/x" cFo).2).countP isPaymentStart ≤ 1 ∧
    allPrecededByStart isPaymentSuccess
      ((monoPayFetch cOpts okEnv "/x" cFo).2) = true ∧
    (allPrecededByStart isPaymentError
        ((monoPayFetch cOpts okEnv "/x" cFo).2) = true ∨
      (∃ e, okEnv.fetchFn 0 "/x" cFo = Except.error e) ∨
      (∃ r0 e, okEnv.fetchFn 0 "/x" cFo = Except.ok r0 ∧ r0.status = 402 ∧
        okEnv.json r0.rid = Except.error e)) :=
  start_before_success_ordering cOpts okEnv "/x" cFo rfl

/-- C8 (amended): when the initial transport call fails, the error
propagates unchanged to the caller, and `onPaymentError` (when supplied)
is also invoked with that same error, because the try/catch of
`monoPayFetch` wraps the initial request as well.  The claim as stated
(callback not invoked) fails on the code. -/
theorem initial_transport_failure_propagates (options : MonoPayOptions)
    (env : Env) (url : String) (fo : FetchOptions) (e : JsErr)
    (hE : options.hasOnPaymentError = true)
    (h0 : env.fetchFn 0 url fo = Except.error e) :
    monoPayFetch options env url fo =
      (Except.error e,
        [Event.fetchCall 0 url fo, Event.paymentError e]) := by
  simp [monoPayFetch, monoPayFetchTry, catchPaymentError, h0, hE]

/-- Witness for C8 (amended): a concrete failing initial request rejects
with the same transport error and fires `onPaymentError` with it. -/
theorem initial_transport_failure_propagates_witness :
    monoPayFetch cOpts fetch0FailEnv "/x" cFo =
      (Except.error (JsErr.ext 3),
        [Event.fetchCall 0 "/x" cFo, Event.paymentError (JsErr.ext 3)]) :=
  initial_transport_failure_propagates cOpts fetch0FailEnv "/x" cFo
    (JsErr.ext 3) rfl rfl

/-- Counterexample to C8 as stated: a failing initial transport call does
invoke `onPaymentError`. -/
theorem initial_failure_fires_error_counterexample :
    ((monoPayFetch cOpts fetch0FailEnv "/x" cFo).2).countP isPaymentError
      = 1 := by
  rfl

/-- The acquirer never performs a transport call: no `fetchCall` event
occurs in its trace. -/
theorem fetchCall_not_mem_cas (env : Env) (cfg : PaymentConfig)
    (rpcUrl : String) (i : Nat) (u : String) (o : FetchOptions) :
    Event.fetchCall i u o ∉ (createAndSignTransaction env cfg rpcUrl).2 := by
  obtain ⟨connEvs, hc, htr⟩ := cas_trace env cfg rpcUrl
  rcases hc with hc | hc <;> rcases htr with h | h | ⟨tx, h⟩ <;>
    rw [h, hc] <;> simp

/-- C4: every logical call performs at most two transport calls, and
whatever the transport returns for the retried request — any status,
including a second 402 — is the final result of the call, without
inspection and without a third request. -/
theorem at_most_two_roundtrips (options : MonoPayOptions) (env : Env)
    (url : String) (fo : FetchOptions) :
    ((monoPayFetch options env url fo).2).countP isFetchCall ≤ 2 ∧
    ∀ ropts, Event.fetchCall 1 url ropts ∈
        (monoPayFetch options env url fo).2 →
      (monoPayFetch options env url fo).1 = env.fetchFn 1 url ropts := by
  rcases run_cases options env url fo with
    ⟨e, he, hrun⟩ | ⟨r0, he, hs, hrun⟩ | ⟨r0, e, he, hs, hj, hrun⟩ |
    ⟨r0, cfg, e, he, hs, hj, hcas, hrun⟩ |
    ⟨r0, cfg, sig, e, he, hs, hj, hcas, h1, hrun⟩ |
    ⟨r0, cfg, sig, r1, he, hs, hj, hcas, h1, hrun⟩
  · refine ⟨?_, ?_⟩
    · rw [hrun]
      cases hE : options.hasOnPaymentError <;>
        simp [List.countP_cons, errEvs, hE, isFetchCall]
    · intro ropts hmem
      rw [hrun] at hmem
      cases hE : options.hasOnPaymentError <;>
        simp [errEvs, hE] at hmem
  · refine ⟨?_, ?_⟩
    · rw [hrun]; simp [List.countP_cons, isFetchCall]
    · intro ropts hmem
      rw [hrun] at hmem
      simp at hmem
  · refine ⟨?_, ?_⟩
    · rw [hrun]
      cases hE : options.hasOnPaymentError <;>
        simp [List.countP_cons, errEvs, hE, isFetchCall]
    · intro ropts hmem
      rw [hrun] at hmem
      cases hE : options.hasOnPaymentError <;>
        simp [errEvs, hE] at hmem
  · refine ⟨?_, ?_⟩
    · rw [hrun]
      cases hE : options.hasOnPaymentError <;>
        cases hSt : options.hasOnPaymentStart <;>
        simp [List.countP_append, List.countP_cons, errEvs, startEvs, hE,
          hSt, isFetchCall,
          cas_countP_zero env cfg options.rpcUrl isFetchCall rfl
            (fun _ => rfl) (fun _ => rfl)]
    · intro ropts hmem
      rw [hrun] at hmem
      cases hE : options.hasOnPaymentError <;>
        cases hSt : options.hasOnPaymentStart <;>
        simp [errEvs, startEvs, hE, hSt,
          fetchCall_not_mem_cas env cfg options.rpcUrl 1 url ropts] at hmem
  · refine ⟨?_, ?_⟩
    · rw [hrun]
      cases hE : options.hasOnPaymentError <;>
        cases hSt : options.hasOnPaymentStart <;>
        cases hS : options.hasOnPaymentSuccess <;>
        simp [List.countP_append, List.countP_cons, errEvs, startEvs,
          succEvs, hE, hSt, hS, isFetchCall,
          cas_countP_zero env cfg options.rpcUrl isFetchCall rfl
            (fun _ => rfl) (fun _ => rfl)]
    · intro ropts hmem
      rw [hrun] at hmem
      rw [hrun]
      cases hE : options.hasOnPaymentError <;>
        cases hSt : options.hasOnPaymentStart <;>
        cases hS : options.hasOnPaymentSuccess <;>
        simp [errEvs, startEvs, succEvs, hE, hSt, hS,
          fetchCall_not_mem_cas env cfg options.rpcUrl 1 url ropts]
          at hmem <;>
        rw [hmem, h1]
  · refine ⟨?_, ?_⟩
    · rw [hrun]
      cases hE : options.hasOnPaymentError <;>
        cases hSt : options.hasOnPaymentStart <;>
        cases hS : options.hasOnPaymentSuccess <;>
        simp [List.countP_append, List.countP_cons, errEvs, startEvs,
          succEvs, hE, hSt, hS, isFetchCall,
          cas_countP_zero env cfg options.rpcUrl isFetchCall rfl
            (fun _ => rfl) (fun _ => rfl)]
    · intro ropts hmem
      rw [hrun] at hmem
      rw [hrun]
      cases hSt : options.hasOnPaymentStart <;>
        cases hS : options.hasOnPaymentSuccess <;>
        simp [startEvs, succEvs, hSt, hS,
          fetchCall_not_mem_cas env cfg options.rpcUrl 1 url ropts]
          at hmem <;>
        rw [hmem, h1]

/-- Witness for C4: when the retried request draws a second 402, that
response is returned as-is and no third transport call happens. -/
theorem at_most_two_roundtrips_witness :
    ((monoPayFetch cOpts retry402Env "/x" cFo).2).countP isFetchCall ≤ 2 ∧
    (monoPayFetch cOpts retry402Env "/x" cFo).1 =
      retry402Env.fetchFn 1 "/x" (retryOptions cFo cSig) :=
  ⟨(at_most_two_roundtrips cOpts retry402Env "/x" cFo).1,
   (at_most_two_roundtrips cOpts retry402Env "/x" cFo).2
     (retryOptions cFo cSig) (by decide)⟩

/-- C10: every transport call of a logical call uses either the caller
options value verbatim (the initial request) or the freshly constructed
`retryOptions` value (the retried request); the embedding is pure because
the source never assigns to `fetchOptions` or its headers, so the caller
objects are unchanged when the call returns or rejects. -/
theorem caller_options_never_mutated (options : MonoPayOptions) (env : Env)
    (url : String) (fo : FetchOptions) :
    ∀ i u o, Event.fetchCall i u o ∈ (monoPayFetch options env url fo).2 →
      (i = 0 ∧ u = url ∧ o = fo) ∨
      (i = 1 ∧ u = url ∧ ∃ sig, o = retryOptions fo sig) := by
  intro i u o hmem
  rcases run_cases options env url fo with
    ⟨e, he, hrun⟩ | ⟨r0, he, hs, hrun⟩ | ⟨r0, e, he, hs, hj, hrun⟩ |
    ⟨r0, cfg, e, he, hs, hj, hcas, hrun⟩ |
    ⟨r0, cfg, sig, e, he, hs, hj, hcas, h1, hrun⟩ |
    ⟨r0, cfg, sig, r1, he, hs, hj, hcas, h1, hrun⟩ <;>
    rw [hrun] at hmem
  · cases hE : options.hasOnPaymentError <;> simp [errEvs, hE] at hmem <;>
      exact Or.inl ⟨hmem.1, hmem.2.1, hmem.2.2⟩
  · simp at hmem
    exact Or.inl ⟨hmem.1, hmem.2.1, hmem.2.2⟩
  · cases hE : options.hasOnPaymentError <;> simp [errEvs, hE] at hmem <;>
      exact Or.inl ⟨hmem.1, hmem.2.1, hmem.2.2⟩
  · cases hE : options.hasOnPaymentError <;>
      cases hSt : options.hasOnPaymentStart <;>
      simp [errEvs, startEvs, hE, hSt,
        fetchCall_not_mem_cas env cfg options.rpcUrl i u o] at hmem <;>
      exact Or.inl ⟨hmem.1, hmem.2.1, hmem.2.2⟩
  · cases hE : options.hasOnPaymentError <;>
      cases hSt : options.hasOnPaymentStart <;>
      cases hS : options.hasOnPaymentSuccess <;>
      simp [errEvs, startEvs, succEvs, hE, hSt, hS,
        fetchCall_not_mem_cas env cfg options.rpcUrl i u o] at hmem <;>
      (rcases hmem with ⟨ha, hb, hc⟩ | ⟨ha, hb, hc⟩
       · exact Or.inl ⟨ha, hb, hc⟩
       · exact Or.inr ⟨ha, hb, sig, hc⟩)
  · cases hE : options.hasOnPaymentError <;>
      cases hSt : options.hasOnPaymentStart <;>
      cases hS : options.hasOnPaymentSuccess <;>
      simp [errEvs, startEvs, succEvs, hE, hSt, hS,
        fetchCall_not_mem_cas env cfg options.rpcUrl i u o] at hmem <;>
      (rcases hmem with ⟨ha, hb, hc⟩ | ⟨ha, hb, hc⟩
       · exact Or.inl ⟨ha, hb, hc⟩
       · exact Or.inr ⟨ha, hb, sig, hc⟩)

/-- Witness for C10: the retried transport call of the happy path uses
the freshly built options value. -/
theorem caller_options_never_mutated_witness :
    (1 = 0 ∧ "/x" = "/x" ∧ retryOptions cFo cSig = cFo) ∨
    (1 = 1 ∧ "/x" = "/x" ∧
      ∃ sig, retryOptions cFo cSig = retryOptions cFo sig) :=
  caller_options_never_mutated cOpts okEnv "/x" cFo 1 "/x"
    (retryOptions cFo cSig) (by decide)

/-- Lookup passes over a prefix that does not bind the key. -/
theorem getHeader_append_none (hs1 hs2 : Headers) (k : String)
    (h : getHeader hs1 k = none) :
    getHeader (hs1 ++ hs2) k = getHeader hs2 k := by
  induction hs1 with
  | nil => rfl
  | cons p rest ih =>
    rcases p with ⟨k2, v⟩
    by_cases hk : k2 = k
    · simp [getHeader, hk] at h
    · simp [getHeader, hk] at h ⊢
      exact ih h

/-- Lookup stops at a prefix that binds the key. -/
theorem getHeader_append_some (hs1 hs2 : Headers) (k : String) (w : String)
    (h : getHeader hs1 k = some w) :
    getHeader (hs1 ++ hs2) k = some w := by
  induction hs1 with
  | nil => simp [getHeader] at h
  | cons p rest ih =>
    rcases p with ⟨k2, v⟩
    by_cases hk : k2 = k
    · simp [getHeader, hk] at h ⊢
      exact h
    · simp [getHeader, hk] at h ⊢
      exact ih h

/-- A key bound nowhere in the map looks up to `none`. -/
theorem getHeader_none_of_not_any (hs : Headers) (k : String)
    (h : hs.any (fun p => p.1 == k) = false) :
    getHeader hs k = none := by
  induction hs with
  | nil => rfl
  | cons p rest ih =>
    rcases p with ⟨k2, v⟩
    simp only [List.any_cons, Bool.or_eq_false_iff] at h
    have hk : ¬ k2 = k := by simpa using h.1
    simp [getHeader, hk, ih h.2]

/-- In-place overwrite: when the key occurs, rewriting every binding of
the key makes it look up to the new value. -/
theorem getHeader_map_set_same (hs : Headers) (k v : String)
    (h : hs.any (fun p => p.1 == k) = true) :
    getHeader (hs.map (fun p => if p.1 = k then (k, v) else p)) k
      = some v := by
  induction hs with
  | nil => simp at h
  | cons p rest ih =>
    rcases p with ⟨k2, w⟩
    rw [List.map_cons]
    by_cases hk : k2 = k
    · rw [if_pos (show (k2, w).1 = k from hk)]
      simp [getHeader]
    · rw [if_neg (show ¬ (k2, w).1 = k from hk)]
      simp only [List.any_cons, Bool.or_eq_true] at h
      rcases h with h | h
      · exact absurd (by simpa using h) hk
      · simp [getHeader, hk, ih h]

/-- In-place overwrite leaves the lookup of every other key unchanged. -/
theorem getHeader_map_set_other (hs : Headers) (k v k2 : String)
    (h : k2 ≠ k) :
    getHeader (hs.map (fun p => if p.1 = k then (k, v) else p)) k2
      = getHeader hs k2 := by
  induction hs with
  | nil => rfl
  | cons p rest ih =>
    rcases p with ⟨k3, w⟩
    rw [List.map_cons]
    by_cases hk : k3 = k
    · rw [if_pos (show (k3, w).1 = k from hk)]
      simp [getHeader, hk, Ne.symm h, ih]
    · rw [if_neg (show ¬ (k3, w).1 = k from hk)]
      simp [getHeader, ih]

/-- After the object-spread update, the written key holds the written
value. -/
theorem getHeader_setKey_same (hs : Headers) (k v : String) :
    getHeader (setKey hs k v) k = some v := by
  unfold setKey
  split
  next h => exact getHeader_map_set_same hs k v h
  next h =>
    rw [getHeader_append_none]
    · simp [getHeader]
    · exact getHeader_none_of_not_any hs k (Bool.eq_false_iff.mpr h)

/-- After the object-spread update, every other key looks up as
before. -/
theorem getHeader_setKey_other (hs : Headers) (k v k2 : String)
    (h : k2 ≠ k) :
    getHeader (setKey hs k v) k2 = getHeader hs k2 := by
  unfold setKey
  split
  next hc => exact getHeader_map_set_other hs k v k2 h
  next hc =>
    cases hg : getHeader hs k2 with
    | none =>
      rw [getHeader_append_none hs _ k2 hg]
      simp [getHeader, Ne.symm h]
    | some w => exact getHeader_append_some hs _ k2 w hg

/-- C5: whenever a retried transport call occurs, its options are the
original options with the proof token written under the fixed header name
x-tx-signature (added or overwritten), every other header looking up
unchanged, and the method and body identical to the original; the token
is exactly the one the acquirer produced for the parsed challenge. -/
theorem retry_request_header_frame (options : MonoPayOptions) (env : Env)
    (url : String) (fo : FetchOptions) (ropts : FetchOptions)
    (hmem : Event.fetchCall 1 url ropts ∈
      (monoPayFetch options env url fo).2) :
    ∃ sig r0 cfg,
      env.fetchFn 0 url fo = Except.ok r0 ∧ r0.status = 402 ∧
      env.json r0.rid = Except.ok cfg ∧
      (createAndSignTransaction env cfg options.rpcUrl).1 = Except.ok sig ∧
      ropts = retryOptions fo sig ∧
      getHeader ropts.headers "x-tx-signature" = some sig ∧
      (∀ k2, k2 ≠ "x-tx-signature" →
        getHeader ropts.headers k2 = getHeader fo.headers k2) ∧
      ropts.method = fo.method ∧ ropts.body = fo.body := by
  rcases run_cases options env url fo with
    ⟨e, he, hrun⟩ | ⟨r0, he, hs, hrun⟩ | ⟨r0, e, he, hs, hj, hrun⟩ |
    ⟨r0, cfg, e, he, hs, hj, hcas, hrun⟩ |
    ⟨r0, cfg, sig, e, he, hs, hj, hcas, h1, hrun⟩ |
    ⟨r0, cfg, sig, r1, he, hs, hj, hcas, h1, hrun⟩ <;>
    rw [hrun] at hmem
  · cases hE : options.hasOnPaymentError <;> simp [errEvs, hE] at hmem
  · simp at hmem
  · cases hE : options.hasOnPaymentError <;> simp [errEvs, hE] at hmem
  · cases hE : options.hasOnPaymentError <;>
      cases hSt : options.hasOnPaymentStart <;>
      simp [errEvs, startEvs, hE, hSt,
        fetchCall_not_mem_cas env cfg options.rpcUrl 1 url ropts] at hmem
  · cases hE : options.hasOnPaymentError <;>
      cases hSt : options.hasOnPaymentStart <;>
      cases hS : options.hasOnPaymentSuccess <;>
      simp [errEvs, startEvs, succEvs, hE, hSt, hS,
        fetchCall_not_mem_cas env cfg options.rpcUrl 1 url ropts]
        at hmem <;>
      exact ⟨sig, r0, cfg, he, hs, hj, hcas, hmem,
        hmem ▸ getHeader_setKey_same fo.headers "x-tx-signature" sig,
        fun k2 hk2 =>
          hmem ▸ getHeader_setKey_other fo.headers "x-tx-signature" sig
            k2 hk2,
        hmem ▸ rfl, hmem ▸ rfl⟩
  · cases hE : options.hasOnPaymentError <;>
      cases hSt : options.hasOnPaymentStart <;>
      cases hS : options.hasOnPaymentSuccess <;>
      simp [errEvs, startEvs, succEvs, hE, hSt, hS,
        fetchCall_not_mem_cas env cfg options.rpcUrl 1 url ropts]
        at hmem <;>
      exact ⟨sig, r0, cfg, he, hs, hj, hcas, hmem,
        hmem ▸ getHeader_setKey_same fo.headers "x-tx-signature" sig,
        fun k2 hk2 =>
          hmem ▸ getHeader_setKey_other fo.headers "x-tx-signature" sig
            k2 hk2,
        hmem ▸ rfl, hmem ▸ rfl⟩

/-- Witness for C5: the happy-path retried request carries the proof
token under x-tx-signature, preserves the custom header, and keeps the
method and body. -/
theorem retry_request_header_frame_witness :
    ∃ sig r0 cfg,
      okEnv.fetchFn 0 "/x" cFo = Except.ok r0 ∧ r0.status = 402 ∧
      okEnv.json r0.rid = Except.ok cfg ∧
      (createAndSignTransaction okEnv cfg cOpts.rpcUrl).1 =
        Except.ok sig ∧
      retryOptions cFo cSig = retryOptions cFo sig ∧
      getHeader (retryOptions cFo cSig).headers "x-tx-signature" =
        some sig ∧
      (∀ k2, k2 ≠ "x-tx-signature" →
        getHeader (retryOptions cFo cSig).headers k2 =
          getHeader cFo.headers k2) ∧
      (retryOptions cFo cSig).method = cFo.method ∧
      (retryOptions cFo cSig).body = cFo.body :=
  retry_request_header_frame cOpts okEnv "/x" cFo (retryOptions cFo cSig)
    (by decide)

/-- Relation between two parse results that agree on everything the code
reads: same error, or challenges with the same `wallet` and
`priceLamports` (the `requiresPayment`, `serviceId` and `message` fields
are unconstrained). -/
def sameCore : Except JsErr PaymentConfig → Except JsErr PaymentConfig →
    Prop
  | Except.error e1, Except.error e2 => e1 = e2
  | Except.ok c1, Except.ok c2 =>
      c1.wallet = c2.wallet ∧ c1.priceLamports = c2.priceLamports
  | _, _ => False

/-- The acquirer reads only the `wallet` and `priceLamports` fields of
the challenge. -/
theorem cas_congr (env : Env) (c1 c2 : PaymentConfig) (rpcUrl : String)
    (hw : c1.wallet = c2.wallet)
    (hp : c1.priceLamports = c2.priceLamports) :
    createAndSignTransaction env c1 rpcUrl =
      createAndSignTransaction env c2 rpcUrl := by
  unfold createAndSignTransaction casConnected
  simp only [hw, hp]

/-- The acquirer does not use the body-parse capability. -/
theorem cas_json_irrel (env : Env)
    (json2 : Nat → Except JsErr PaymentConfig) (cfg : PaymentConfig)
    (rpcUrl : String) :
    createAndSignTransaction { env with json := json2 } cfg rpcUrl =
      createAndSignTransaction env cfg rpcUrl := rfl

/-- C9: two environments whose challenge parses agree on `wallet` and
`priceLamports` (and on parse errors) produce identical runs — result and
full trace, hence identical transactions, proof tokens and retried
requests — whatever the `requiresPayment`, `serviceId` and `message`
fields are. -/
theorem opaque_fields_noninterference (env : Env)
    (json2 : Nat → Except JsErr PaymentConfig)
    (hrel : ∀ rid, sameCore (env.json rid) (json2 rid))
    (options : MonoPayOptions) (url : String) (fo : FetchOptions) :
    monoPayFetch options { env with json := json2 } url fo =
      monoPayFetch options env url fo := by
  rcases h0 : env.fetchFn 0 url fo with e | r0
  · simp [monoPayFetch, monoPayFetchTry, catchPaymentError, h0]
  · by_cases h402 : r0.status = 402
    · have hr := hrel r0.rid
      rcases hj : env.json r0.rid with e1 | cA <;>
        rcases hj2 : json2 r0.rid with e2 | cB <;>
        rw [hj, hj2] at hr <;> simp only [sameCore] at hr
      · subst hr
        simp [monoPayFetch, monoPayFetchTry, catchPaymentError, h0, h402,
          hj, hj2]
      · have hcas := cas_congr env cB cA options.rpcUrl hr.1.symm
          hr.2.symm
        simp [monoPayFetch, monoPayFetchTry, catchPaymentError, h0, h402,
          hj, hj2, cas_json_irrel, hcas]
    · simp [monoPayFetch, monoPayFetchTry, catchPaymentError, h0, h402]

/-- A challenge differing from `cCfg` only in its `requiresPayment`,
`serviceId` and `message` fields. -/
def cCfg2 : PaymentConfig :=
  { requiresPayment := false, serviceId := "svc2", wallet := "ADDR1",
    priceLamports := 5000000, message := "other" }

/-- Witness for C9: replacing the parsed challenge by one differing only
in the opaque fields leaves the whole run unchanged. -/
theorem opaque_fields_noninterference_witness :
    monoPayFetch cOpts { okEnv with json := fun _ => Except.ok cCfg2 }
        "/x" cFo =
      monoPayFetch cOpts okEnv "/x" cFo :=
  opaque_fields_noninterference okEnv (fun _ => Except.ok cCfg2)
    (fun _ => ⟨rfl, rfl⟩) cOpts "/x" cFo


end MonoPay
